import Mathlib

/-
Verification development for the Sakila SQL-to-NoSQL migration utility
(src/migration.js).  The JavaScript program is shallowly embedded: each
transformation in migration.js is translated into an executable Lean
definition, JavaScript numbers that matter are modelled as exact rationals,
nullable driver values as Option, and the JavaScript value that a field may
hold (string / number / NaN / null / undefined) as small inductive types.
-/

namespace Sakila

/-- Model of a JavaScript value as it travels from the relational driver into
a document field: a string, a finite number (modelled as an exact rational),
or NaN.  parseFloat never yields null/undefined, so those are not needed
here. -/
inductive JsVal where
  | str (s : String)
  | num (q : ℚ)
  | nan
deriving DecidableEq

/-- Longest prefix of decimal digits of a character list. -/
def leadingDigits : List Char → List Char
  | [] => []
  | c :: cs => if c.isDigit then c :: leadingDigits cs else []

/-- Remainder of a character list after its decimal-digit prefix. -/
def afterDigits : List Char → List Char
  | [] => []
  | c :: cs => if c.isDigit then afterDigits cs else c :: cs

/-- Numeric value of a list of decimal digits (most significant first). -/
def digitsVal (l : List Char) : Nat :=
  l.foldl (fun acc c => 10 * acc + (c.toNat - 48)) 0

/-- Unsigned part of JavaScript parseInt in base 10: the longest leading
digit run, or NaN (none) when there is none. -/
def parseIntDigits (l : List Char) : Option Int :=
  if leadingDigits l = [] then none else some ((digitsVal (leadingDigits l) : Int))

/-- Model of JavaScript parseInt(s) in base 10 on strings without leading
whitespace or a 0x prefix (the only shapes fed to it by migration.js: the
comma-split pieces of the STRING_AGG aggregates).  none models NaN. -/
def parseIntJs (s : String) : Option Int :=
  match s.toList with
  | '-' :: rest => (parseIntDigits rest).map (fun n => -n)
  | '+' :: rest => parseIntDigits rest
  | l => parseIntDigits l

/-- Unsigned part of JavaScript parseFloat on decimal notation (digits,
optional point, digits) without an exponent part; none models NaN. -/
def parseFracQ (l : List Char) : Option ℚ :=
  let ip := leadingDigits l
  match afterDigits l with
  | '.' :: r2 =>
    let fp := leadingDigits r2
    if ip = [] ∧ fp = [] then none
    else some ((digitsVal ip : ℚ) + (digitsVal fp : ℚ) / ((10 : ℚ) ^ fp.length))
  | _ => if ip = [] then none else some ((digitsVal ip : ℚ))

/-- Model of JavaScript parseFloat(s) on strings in plain decimal notation
without leading whitespace or an exponent (the shapes the relational driver
yields for numeric columns).  none models NaN. -/
def parseFloatQ (s : String) : Option ℚ :=
  match s.toList with
  | '-' :: rest => (parseFracQ rest).map (fun q => -q)
  | '+' :: rest => parseFracQ rest
  | l => parseFracQ l

/-- Model of the JavaScript expression parseFloat(v) at a driver-supplied
value v: a string is parsed (NaN on failure), a number passes through
unchanged (parseFloat(String(n)) round-trips finite numbers), NaN stays
NaN.  Used by migration.js lines 222 and 224 on rental_rate and
replacement_cost. -/
def jsParseFloat : JsVal → JsVal
  | JsVal.str s =>
    match parseFloatQ s with
    | some q => JsVal.num q
    | none => JsVal.nan
  | JsVal.num q => JsVal.num q
  | JsVal.nan => JsVal.nan

/-- Accumulator-passing core of String.prototype.split with separator
sign ',' : the accumulator holds the current piece reversed. -/
def splitCommaAux : List Char → List Char → List String
  | [], acc => [String.mk acc.reverse]
  | c :: cs, acc =>
    if c = ',' then String.mk acc.reverse :: splitCommaAux cs []
    else splitCommaAux cs (c :: acc)

/-- Model of the JavaScript expression s.split(m) at separator m = the comma,
the only separator migration.js uses (category_ids, actor_ids,
special_features). -/
def splitComma (s : String) : List String :=
  splitCommaAux s.toList []

/-- Reduced language representation {id, name} built by fetchLanguages
(migration.js lines 108 to 119) and stored in languagesMap. -/
structure Language where
  id : Int
  name : String
deriving DecidableEq

/-- Reduced category representation {id, name} built by fetchCategories
(migration.js lines 121 to 132) and stored in categoriesMap. -/
structure Category where
  id : Int
  name : String
deriving DecidableEq

/-- Row of the actor query issued by fetchActors (migration.js line 136). -/
structure ActorRow where
  actor_id : Int
  first_name : String
  last_name : String
  last_update : Int
deriving DecidableEq

/-- Document inserted into the actors collection by migrateActorsToMongoDB
(migration.js lines 195 to 200). -/
structure ActorDoc where
  _id : Int
  first_name : String
  last_name : String
  last_update : Int
deriving DecidableEq

/-- Row of the film query issued by fetchFilms (migration.js lines 140 to
159).  rental_rate and replacement_cost are kept as raw driver values
(possibly text), the nullable columns and the two STRING_AGG aggregate
columns as Option (none models SQL NULL reaching JavaScript as null). -/
structure FilmRow where
  film_id : Int
  title : String
  description : String
  release_year : Int
  rental_duration : Int
  rental_rate : JsVal
  length : Int
  replacement_cost : JsVal
  rating : String
  special_features : Option String
  last_update : Int
  language_id : Int
  original_language_id : Option Int
  category_ids : Option String
  actor_ids : Option String
deriving DecidableEq

/-- Value of the original_language field of a built film document
(migration.js line 229): JavaScript null when the ternary condition is
falsy, the looked-up language object when languagesMap has the key, and
JavaScript undefined when the lookup misses. -/
inductive OrigLang where
  | jsNull
  | jsUndefined
  | lang (l : Language)
deriving DecidableEq

/-- Document pushed onto filmDocs by migrateFilmsToMongoDB (migration.js
lines 216 to 232).  language is Option because languagesMap[film.language_id]
is undefined when the key is absent; actors holds Option Int because
parseInt can in principle yield NaN (none). -/
structure FilmDoc where
  _id : Int
  title : String
  description : String
  release_year : Int
  rental_duration : Int
  rental_rate : JsVal
  length : Int
  replacement_cost : JsVal
  rating : String
  special_features : List String
  last_update : Int
  language : Option Language
  original_language : OrigLang
  categories : List Category
  actors : List (Option Int)
deriving DecidableEq

/-- Per-film transformation body of migrateFilmsToMongoDB (migration.js
lines 212 to 232), translated clause by clause:
the categories line maps categoriesMap[parseInt(id)] over the comma-split
aggregate and filters with Boolean (dropping undefined lookups); the
actors line keeps the parsed integers with no lookup; special_features,
original_language and the two parseFloat coercions follow the JavaScript
truthiness of the corresponding ternaries (null, undefined and the empty
string are falsy, the number 0 is falsy). -/
def buildFilmDoc (lmap : Int → Option Language) (cmap : Int → Option Category)
    (film : FilmRow) : FilmDoc :=
  let categories : List Category :=
    match film.category_ids with
    | none => []
    | some s =>
      if s = "" then []
      else ((splitComma s).map (fun id =>
        match parseIntJs id with
        | none => none
        | some n => cmap n)).reduceOption
  let actorIds : List (Option Int) :=
    match film.actor_ids with
    | none => []
    | some s => if s = "" then [] else (splitComma s).map parseIntJs
  { _id := film.film_id
    title := film.title
    description := film.description
    release_year := film.release_year
    rental_duration := film.rental_duration
    rental_rate := jsParseFloat film.rental_rate
    length := film.length
    replacement_cost := jsParseFloat film.replacement_cost
    rating := film.rating
    special_features :=
      match film.special_features with
      | none => []
      | some s => if s = "" then [] else splitComma s
    last_update := film.last_update
    language := lmap film.language_id
    original_language :=
      match film.original_language_id with
      | none => OrigLang.jsNull
      | some id =>
        if id = 0 then OrigLang.jsNull
        else
          match lmap id with
          | some l => OrigLang.lang l
          | none => OrigLang.jsUndefined
    categories := categories
    actors := actorIds }

/-- Document built from an actor row by migrateActorsToMongoDB
(migration.js lines 195 to 200): the source actor_id becomes _id. -/
def actorDocOfRow (a : ActorRow) : ActorDoc :=
  { _id := a.actor_id
    first_name := a.first_name
    last_name := a.last_name
    last_update := a.last_update }

/-- Load phase of migrateActorsToMongoDB (migration.js lines 195 to 203),
viewed as the list of insertMany calls it issues against the actors
collection: one bulk call carrying every document when the mapped list is
non-empty, no call at all when it is empty. -/
def migrateActorsToMongoDB (actors : List ActorRow) : List (List ActorDoc) :=
  let actorDocs := actors.map actorDocOfRow
  if actorDocs.length > 0 then [actorDocs] else []

/-- Load phase of migrateFilmsToMongoDB (migration.js lines 236 to 238),
viewed as the list of insertMany calls issued against the films
collection. -/
def migrateFilmsToMongoDB (lmap : Int → Option Language)
    (cmap : Int → Option Category) (films : List FilmRow) : List (List FilmDoc) :=
  let filmDocs := films.map (buildFilmDoc lmap cmap)
  if filmDocs.length > 0 then [filmDocs] else []

/-- One Redis hash: its key and its named string fields. -/
structure RedisHash where
  key : String
  fields : List (String × String)
deriving DecidableEq

/-- Joint state of the two NoSQL targets: every Redis key and the contents
of the films and actors collections. -/
structure NoSqlState where
  redisKeys : List RedisHash
  films : List FilmDoc
  actors : List ActorDoc
deriving DecidableEq

/-- Effect of redisClient.flushDb() (migration.js line 52). -/
def flushDb (st : NoSqlState) : NoSqlState :=
  { st with redisKeys := [] }

/-- Effect of mongoDb.collection of films deleteMany with the empty filter
(migration.js line 54). -/
def deleteManyFilms (st : NoSqlState) : NoSqlState :=
  { st with films := [] }

/-- Effect of mongoDb.collection of actors deleteMany with the empty filter
(migration.js line 55). -/
def deleteManyActors (st : NoSqlState) : NoSqlState :=
  { st with actors := [] }

/-- Conditional cleanup step of runMigration (migration.js lines 51 to 57):
the three destructive calls run exactly when the CLEAR_NOSQL_DATA
environment value (none when unset) is strictly equal to the string
true. -/
def cleanupStep (clearNoSqlData : Option String) (st : NoSqlState) : NoSqlState :=
  if clearNoSqlData = some "true" then deleteManyActors (deleteManyFilms (flushDb st))
  else st

/-- The three external connections runMigration opens and closes. -/
inductive Conn where
  | pg
  | redis
  | mongo
deriving DecidableEq

/-- Outcome oracle for one run of runMigration: whether each connect call
succeeds, whether the migration body (cleanup, extraction, load) succeeds,
and whether each close call succeeds. -/
structure Behavior where
  pgConnectOk : Bool
  redisConnectOk : Bool
  mongoConnectOk : Bool
  bodyOk : Bool
  pgCloseOk : Bool
  redisCloseOk : Bool
  mongoCloseOk : Bool
deriving DecidableEq

/-- Observable outcome of one run: which close calls were attempted (in
order), the process exit status, and whether an exception escaped the
teardown block. -/
structure RunResult where
  closeAttempts : List Conn
  exitCode : Nat
  teardownThrew : Bool
deriving DecidableEq

/-- Third guarded close of the teardown block (migration.js lines 87 to 90):
attempted only when mongoClient was assigned; a throwing close makes the
exception escape. -/
def closeMongoStep (b : Behavior) (hMongo : Bool) : List Conn × Bool :=
  if hMongo then
    if b.mongoCloseOk then ([Conn.mongo], false) else ([Conn.mongo], true)
  else ([], false)

/-- Second guarded close of the teardown block (migration.js lines 83 to
86): attempted only when redisClient was assigned; a throwing close
abandons the rest of the block, so the mongo close is skipped. -/
def closeRedisStep (b : Behavior) (hRedis hMongo : Bool) : List Conn × Bool :=
  if hRedis then
    if b.redisCloseOk then
      let r := closeMongoStep b hMongo
      (Conn.redis :: r.1, r.2)
    else ([Conn.redis], true)
  else closeMongoStep b hMongo

/-- Teardown block of runMigration (migration.js lines 77 to 91): each close
is guarded only by an if on the handle having been assigned; an exception
from any close propagates out of the block immediately, skipping the later
closes. -/
def teardownRun (b : Behavior) (hPg hRedis hMongo : Bool) : List Conn × Bool :=
  if hPg then
    if b.pgCloseOk then
      let r := closeRedisStep b hRedis hMongo
      (Conn.pg :: r.1, r.2)
    else ([Conn.pg], true)
  else closeRedisStep b hRedis hMongo

/-- Whole-run model of runMigration (migration.js lines 28 to 92).  On any
exception inside the try block the catch handler runs process.exit(1),
which terminates the Node.js process synchronously, so the finally block
never executes on a failure path: no close is attempted and the exit
status is one.  On the success path the finally block runs with all three
handles assigned; if a close throws, the escaping rejection of the
runMigration() promise is unhandled at top level (migration.js line 243),
which terminates current Node.js with a nonzero status, modelled as exit
code one. -/
def runMigration (b : Behavior) : RunResult :=
  if b.pgConnectOk = false then
    { closeAttempts := [], exitCode := 1, teardownThrew := false }
  else if b.redisConnectOk = false then
    { closeAttempts := [], exitCode := 1, teardownThrew := false }
  else if b.mongoConnectOk = false then
    { closeAttempts := [], exitCode := 1, teardownThrew := false }
  else if b.bodyOk = false then
    { closeAttempts := [], exitCode := 1, teardownThrew := false }
  else
    let r := teardownRun b true true true
    { closeAttempts := r.1, exitCode := if r.2 then 1 else 0, teardownThrew := r.2 }

/-- Specification reading of the categories clause (used by claim C3): the
identifiers of the aggregate are resolved through the category mapping, the
hits are kept in aggregate order, the misses are silently omitted. -/
def categoriesSpec (cmap : Int → Option Category) (agg : Option String) : List Category :=
  match agg with
  | none => []
  | some s =>
    if s = "" then []
    else (splitComma s).filterMap (fun t => (parseIntJs t).bind cmap)

/-- Empty language mapping: no language row was fetched. -/
def lmapEmpty : Int → Option Language := fun _ => none

/-- Empty category mapping: no category row was fetched. -/
def cmapEmpty : Int → Option Category := fun _ => none

/-- Language mapping holding exactly language 7, named Klingon (the example
of testable property 6 of the specification). -/
def lmapK : Int → Option Language :=
  fun i => if i = 7 then some { id := 7, name := "Klingon" } else none

/-- A plain film row with every optional column absent, used as the base of
the concrete test rows below. -/
def filmBase : FilmRow :=
  { film_id := 1
    title := "ACADEMY DINOSAUR"
    description := "doc"
    release_year := 2006
    rental_duration := 3
    rental_rate := JsVal.num 1
    length := 86
    replacement_cost := JsVal.num 20
    rating := "PG"
    special_features := none
    last_update := 0
    language_id := 1
    original_language_id := none
    category_ids := none
    actor_ids := none }

/-- Film row whose actor aggregate references actor 99 while no actor row
exists anywhere (the maps and collections of the run are empty). -/
def filmStaleActor : FilmRow :=
  { filmBase with actor_ids := some "99" }

/-- Film row whose original-language column holds 7. -/
def film7 : FilmRow :=
  { filmBase with original_language_id := some 7 }

/-- Language mapping holding exactly language 0: an extreme mapping that
resolves the identifier 0, exposing the JavaScript truthiness of the
original-language ternary. -/
def lmap0 : Int → Option Language :=
  fun i => if i = 0 then some { id := 0, name := "Zero" } else none

/-- Film row whose original-language column holds 0, a non-absent value
that JavaScript truthiness treats as falsy. -/
def film0 : FilmRow :=
  { filmBase with original_language_id := some 0 }

/-- Film row whose original-language column holds 5, an identifier that the
language mapping does not contain. -/
def film5 : FilmRow :=
  { filmBase with original_language_id := some 5 }

/-- Film row with a two-entry special_features text. -/
def filmSf : FilmRow :=
  { filmBase with special_features := some "Trailers,Deleted Scenes" }

/-- Film row whose special_features text is the empty string. -/
def filmSfEmpty : FilmRow :=
  { filmBase with special_features := some "" }

/-- Film row whose rental_rate reaches JavaScript as the text 4.99. -/
def film499 : FilmRow :=
  { filmBase with rental_rate := JsVal.str "4.99" }

/-- One concrete actor row. -/
def actorsEx : List ActorRow :=
  [{ actor_id := 5, first_name := "PENELOPE", last_name := "GUINESS", last_update := 0 }]

/-- A NoSQL target state with pre-existing records in the key-value store
and the actors collection. -/
def stEx : NoSqlState :=
  { redisKeys := [{ key := "country:1", fields := [("country_name", "Algeria")] }]
    films := []
    actors := [{ _id := 1, first_name := "A", last_name := "B", last_update := 0 }] }

/-- Run behavior: all connects and the body succeed, closing the relational
connection throws, the other closes would succeed. -/
def bPgCloseFails : Behavior :=
  { pgConnectOk := true, redisConnectOk := true, mongoConnectOk := true,
    bodyOk := true, pgCloseOk := false, redisCloseOk := true, mongoCloseOk := true }

/-- Run behavior: all three connects succeed and the migration body throws
(for instance the films bulk insert is rejected); every close would
succeed. -/
def bBodyFails : Behavior :=
  { pgConnectOk := true, redisConnectOk := true, mongoConnectOk := true,
    bodyOk := false, pgCloseOk := true, redisCloseOk := true, mongoCloseOk := true }

/-- Mapping a function and then collapsing the optional results equals a
direct filterMap. -/
theorem map_reduceOption_eq_filterMap {α β : Type} (f : α → Option β) (l : List α) :
    (l.map f).reduceOption = l.filterMap f := by
  simp [List.reduceOption, List.filterMap_map, Function.comp]

/-- Claim C1: the specification requires the connection-teardown phase to
run on every failure path, closing each opened connection before the
process exits with status one.  In migration.js the catch handler calls
process.exit(1), which terminates the Node.js process synchronously, so the
finally block never executes after a failure: evaluating the run model at a
behavior whose migration body throws after all three connections opened
shows exit status one with zero close attempts. -/
theorem C1_no_teardown_on_failure :
    runMigration bBodyFails =
      { closeAttempts := [], exitCode := 1, teardownThrew := false } := by
  rfl

/-- Claim C2 counterexample: all three connections open and the migration
body succeeds, then closing the relational connection throws.  The claim
says the key-value and document closes are still attempted; in the code the
exception escapes the finally block at once, so only the relational close
is ever attempted. -/
theorem C2_counterexample :
    (runMigration bPgCloseFails).closeAttempts = [Conn.pg] ∧
      Conn.redis ∉ (runMigration bPgCloseFails).closeAttempts ∧
      Conn.mongo ∉ (runMigration bPgCloseFails).closeAttempts := by
  decide

/-- Claim C2 (amended): in the teardown phase each close is guarded only by
a check that its handle was assigned, not against errors: a close that
throws aborts the teardown, skipping every later close and letting the
error escape, while a run whose closes all succeed attempts all three in
order relational, key-value, document. -/
theorem C2_teardown_not_error_guarded (b : Behavior)
    (h1 : b.pgConnectOk = true) (h2 : b.redisConnectOk = true)
    (h3 : b.mongoConnectOk = true) (h4 : b.bodyOk = true) :
    (b.pgCloseOk = false →
      (runMigration b).closeAttempts = [Conn.pg] ∧
        (runMigration b).teardownThrew = true) ∧
    (b.pgCloseOk = true → b.redisCloseOk = false →
      (runMigration b).closeAttempts = [Conn.pg, Conn.redis] ∧
        (runMigration b).teardownThrew = true) ∧
    (b.pgCloseOk = true → b.redisCloseOk = true → b.mongoCloseOk = false →
      (runMigration b).closeAttempts = [Conn.pg, Conn.redis, Conn.mongo] ∧
        (runMigration b).teardownThrew = true) ∧
    (b.pgCloseOk = true → b.redisCloseOk = true → b.mongoCloseOk = true →
      (runMigration b).closeAttempts = [Conn.pg, Conn.redis, Conn.mongo] ∧
        (runMigration b).teardownThrew = false) := by
  rcases b with ⟨p1, p2, p3, p4, c1, c2, c3⟩
  simp only at h1 h2 h3 h4
  subst h1; subst h2; subst h3; subst h4
  cases c1 <;> cases c2 <;> cases c3 <;> decide

/-- Claim C2 (amended) witness: concrete run in which the relational close
throws; only that close is attempted and the error escapes the teardown. -/
theorem C2_witness :
    (runMigration bPgCloseFails).closeAttempts = [Conn.pg] ∧
      (runMigration bPgCloseFails).teardownThrew = true :=
  (C2_teardown_not_error_guarded bPgCloseFails rfl rfl rfl rfl).1 rfl

/-- Claim C3: the categories list of every built film document holds exactly
the resolved objects of the aggregate identifiers that the category mapping
contains, in aggregate order, with unmatched identifiers silently omitted
and no error raised (the transformation is a total function). -/
theorem C3_categories (lmap : Int → Option Language) (cmap : Int → Option Category)
    (film : FilmRow) :
    (buildFilmDoc lmap cmap film).categories = categoriesSpec cmap film.category_ids := by
  cases hc : film.category_ids with
  | none => simp [buildFilmDoc, categoriesSpec, hc]
  | some s =>
    by_cases hs : s = ""
    · simp [buildFilmDoc, categoriesSpec, hc, hs]
    · have hfun : (fun id => match parseIntJs id with
          | none => none
          | some n => cmap n) = fun t => (parseIntJs t).bind cmap := by
        funext t
        cases parseIntJs t <;> rfl
      simp only [buildFilmDoc, categoriesSpec, hc, if_neg hs, hfun,
        map_reduceOption_eq_filterMap]

/-- Claim C4 counterexample: the per-film transformation receives no actor
data at all (it has no actor parameter), so with every lookup map empty and
no actor row in existence, a film whose aggregate references actor 99 still
gets actors equal to the one-element list holding 99: the stale reference
is kept, not dropped. -/
theorem C4_counterexample :
    (buildFilmDoc lmapEmpty cmapEmpty filmStaleActor).actors = [some 99] ∧
      (buildFilmDoc lmapEmpty cmapEmpty filmStaleActor).actors ≠ [] := by
  decide

/-- Claim C4 (amended): every identifier of the actor aggregate is parsed
and kept verbatim in the actors list, with no existence check against actor
rows; a reference to a missing actor is retained rather than dropped, and
no error is raised. -/
theorem C4_actor_ids_kept (lmap : Int → Option Language)
    (cmap : Int → Option Category) (film : FilmRow) (s t : String)
    (hs : film.actor_ids = some s) (hne : s ≠ "") (ht : t ∈ splitComma s) :
    parseIntJs t ∈ (buildFilmDoc lmap cmap film).actors := by
  have hact : (buildFilmDoc lmap cmap film).actors = (splitComma s).map parseIntJs := by
    simp [buildFilmDoc, hs, hne]
  rw [hact]
  exact List.mem_map_of_mem parseIntJs ht

/-- Claim C4 (amended) witness: the stale reference 99 is in the built
list. -/
theorem C4_witness :
    parseIntJs "99" ∈ (buildFilmDoc lmapEmpty cmapEmpty filmStaleActor).actors :=
  C4_actor_ids_kept lmapEmpty cmapEmpty filmStaleActor "99" "99" rfl (by decide) (by decide)

/-- Claim C5 counterexample: a film whose original-language column holds
the non-absent value 0, with a language mapping that resolves the
identifier 0.  The claim says the field then equals the resolved object;
the ternary of migration.js line 229 treats the number 0 as falsy, so the
field is the explicit null instead. -/
theorem C5_counterexample :
    film0.original_language_id = some 0 ∧
      lmap0 0 = some { id := 0, name := "Zero" } ∧
      (buildFilmDoc lmap0 cmapEmpty film0).original_language = OrigLang.jsNull ∧
      OrigLang.jsNull ≠ OrigLang.lang { id := 0, name := "Zero" } := by
  decide

/-- Claim C5 (amended): the built film document always carries the
original_language field; when the original-language column is non-absent
and non-zero and the language mapping resolves it, the field holds the
resolved language object, and when the column is absent — or holds 0,
which JavaScript truthiness treats like absent — the field is explicitly
the JavaScript null, not an omitted key (the field is part of the document
shape by construction). -/
theorem C5_original_language (lmap : Int → Option Language)
    (cmap : Int → Option Category) (film : FilmRow) :
    (∀ id l, film.original_language_id = some id → id ≠ 0 → lmap id = some l →
      (buildFilmDoc lmap cmap film).original_language = OrigLang.lang l) ∧
    (film.original_language_id = none →
      (buildFilmDoc lmap cmap film).original_language = OrigLang.jsNull) ∧
    (film.original_language_id = some 0 →
      (buildFilmDoc lmap cmap film).original_language = OrigLang.jsNull) := by
  refine ⟨fun id l hid h0 hl => ?_, fun h => ?_, fun h => ?_⟩
  · simp [buildFilmDoc, hid, h0, hl]
  · simp [buildFilmDoc, h]
  · simp [buildFilmDoc, h]

/-- Claim C5 (amended) witness: with language 7 named Klingon in the
mapping, a film whose original-language column holds 7 gets that object; a
film whose column is absent gets the explicit null; and a film whose
column holds 0 gets the explicit null even though the mapping resolves
0. -/
theorem C5_witness :
    (buildFilmDoc lmapK cmapEmpty film7).original_language =
        OrigLang.lang { id := 7, name := "Klingon" } ∧
      (buildFilmDoc lmapK cmapEmpty filmBase).original_language = OrigLang.jsNull ∧
      (buildFilmDoc lmap0 cmapEmpty film0).original_language = OrigLang.jsNull :=
  ⟨(C5_original_language lmapK cmapEmpty film7).1 7 { id := 7, name := "Klingon" }
      rfl (by decide) (by decide),
    (C5_original_language lmapK cmapEmpty filmBase).2.1 rfl,
    (C5_original_language lmap0 cmapEmpty film0).2.2 rfl⟩

/-- Claim C6: when the original-language column is non-absent and nonzero
but the language mapping has no entry for it, the field holds the
JavaScript undefined (so the key is effectively missing once the document
is stored), an outcome distinct from the explicit null of the absent case;
no error is raised. -/
theorem C6_original_language_unmapped (lmap : Int → Option Language)
    (cmap : Int → Option Category) (film : FilmRow) (id : Int)
    (hid : film.original_language_id = some id) (h0 : id ≠ 0)
    (hm : lmap id = none) :
    (buildFilmDoc lmap cmap film).original_language = OrigLang.jsUndefined ∧
      OrigLang.jsUndefined ≠ OrigLang.jsNull := by
  constructor
  · simp [buildFilmDoc, hid, h0, hm]
  · decide

/-- Claim C6 witness: original-language column 5 with an empty language
mapping yields the undefined marker. -/
theorem C6_witness :
    (buildFilmDoc lmapEmpty cmapEmpty film5).original_language = OrigLang.jsUndefined ∧
      OrigLang.jsUndefined ≠ OrigLang.jsNull :=
  C6_original_language_unmapped lmapEmpty cmapEmpty film5 5 rfl (by decide) rfl

/-- Claim C7: special_features of the built document is the comma-split of
the source text when that text is non-empty, and the empty list (present,
never an absent field: it is part of the document shape by construction)
when the source value is absent or the empty string; no error is raised
either way. -/
theorem C7_special_features (lmap : Int → Option Language)
    (cmap : Int → Option Category) (film : FilmRow) :
    (film.special_features = none →
      (buildFilmDoc lmap cmap film).special_features = []) ∧
    (film.special_features = some "" →
      (buildFilmDoc lmap cmap film).special_features = []) ∧
    (∀ s, film.special_features = some s → s ≠ "" →
      (buildFilmDoc lmap cmap film).special_features = splitComma s) := by
  refine ⟨fun h => ?_, fun h => ?_, fun s h hs => ?_⟩
  · simp [buildFilmDoc, h]
  · simp [buildFilmDoc, h]
  · simp [buildFilmDoc, h, hs]

/-- Claim C7 witness: a two-entry text splits, the empty text gives the
empty list. -/
theorem C7_witness :
    (buildFilmDoc lmapEmpty cmapEmpty filmSf).special_features =
        splitComma "Trailers,Deleted Scenes" ∧
      (buildFilmDoc lmapEmpty cmapEmpty filmSfEmpty).special_features = [] :=
  ⟨(C7_special_features lmapEmpty cmapEmpty filmSf).2.2 "Trailers,Deleted Scenes"
      rfl (by decide),
    (C7_special_features lmapEmpty cmapEmpty filmSfEmpty).2.1 rfl⟩

/-- Claim C8: with zero actor rows the actor load issues no bulk-insert
call and raises no error (the function is total and returns the empty call
list); with one or more rows it issues exactly one bulk-insert call holding
every actor document, each with _id equal to the source actor
identifier. -/
theorem C8_actor_load (actors : List ActorRow) :
    (actors = [] → migrateActorsToMongoDB actors = []) ∧
    (actors ≠ [] →
      migrateActorsToMongoDB actors = [actors.map actorDocOfRow] ∧
        ∀ a ∈ actors, (actorDocOfRow a)._id = a.actor_id) := by
  constructor
  · intro h
    subst h
    rfl
  · intro h
    refine ⟨?_, fun a _ => rfl⟩
    cases actors with
    | nil => exact absurd rfl h
    | cons a t => simp [migrateActorsToMongoDB]

/-- Claim C8 witness: one actor row yields one bulk call whose document
carries the source identifier as _id. -/
theorem C8_witness :
    migrateActorsToMongoDB actorsEx = [actorsEx.map actorDocOfRow] ∧
      ∀ a ∈ actorsEx, (actorDocOfRow a)._id = a.actor_id :=
  (C8_actor_load actorsEx).2 (by decide)

/-- Claim C9: the cleanup step empties the entire key-value store and both
document collections exactly when the clear flag equals the string true;
for any other value, including unset, the target state is left completely
unchanged. -/
theorem C9_cleanup_flag (flag : Option String) (st : NoSqlState) :
    (flag = some "true" →
      cleanupStep flag st = { redisKeys := [], films := [], actors := [] }) ∧
    (flag ≠ some "true" → cleanupStep flag st = st) := by
  constructor
  · intro h
    subst h
    rfl
  · intro h
    simp [cleanupStep, h]

/-- Claim C9 witness: with the flag true a populated state is fully
emptied; with the flag false the same state is untouched. -/
theorem C9_witness :
    cleanupStep (some "true") stEx = { redisKeys := [], films := [], actors := [] } ∧
      cleanupStep (some "false") stEx = stEx :=
  ⟨(C9_cleanup_flag (some "true") stEx).1 rfl,
    (C9_cleanup_flag (some "false") stEx).2 (by decide)⟩

/-- Claim C10: the rental_rate and replacement_cost fields of every built
film document are the parseFloat coercion of the source value, the
coercion never yields a string, and a source rental_rate equal to the text
4.99 yields the number 499/100, not the string. -/
theorem C10_monetary_coercion (lmap : Int → Option Language)
    (cmap : Int → Option Category) (film : FilmRow) :
    (buildFilmDoc lmap cmap film).rental_rate = jsParseFloat film.rental_rate ∧
    (buildFilmDoc lmap cmap film).replacement_cost = jsParseFloat film.replacement_cost ∧
    (∀ v t, jsParseFloat v ≠ JsVal.str t) ∧
    (film.rental_rate = JsVal.str "4.99" →
      (buildFilmDoc lmap cmap film).rental_rate = JsVal.num ((499 : ℚ) / 100)) := by
  refine ⟨rfl, rfl, fun v t => ?_, fun h => ?_⟩
  · cases v with
    | str s =>
      simp only [jsParseFloat]
      cases hq : parseFloatQ s <;> simp [hq]
    | num q => simp [jsParseFloat]
    | nan => simp [jsParseFloat]
  · have h1 : (buildFilmDoc lmap cmap film).rental_rate = jsParseFloat film.rental_rate := rfl
    have h2 : jsParseFloat (JsVal.str "4.99") =
        JsVal.num (((4 : ℕ) : ℚ) + ((99 : ℕ) : ℚ) / ((10 : ℚ) ^ (2 : ℕ))) := rfl
    have h3 : ((4 : ℕ) : ℚ) + ((99 : ℕ) : ℚ) / ((10 : ℚ) ^ (2 : ℕ)) = (499 : ℚ) / 100 := by
      norm_num
    rw [h1, h, h2, h3]

/-- Claim C10 witness: the concrete film whose rental_rate is the text 4.99
gets the rational 499/100 in its document. -/
theorem C10_witness :
    (buildFilmDoc lmapEmpty cmapEmpty film499).rental_rate = JsVal.num ((499 : ℚ) / 100) :=
  (C10_monetary_coercion lmapEmpty cmapEmpty film499).2.2.2 rfl

end Sakila
